import Mathlib

/-!
# Verification of the `pipeline_to_GC.py` ETL pipeline

A shallow embedding of the single-file ETL pipeline
(`CloudETLPipeline` in `src/pipeline_to_GC.py`) and proofs of the
specification claims about it.

Modelling choices:

* A pandas `DataFrame` is modelled column-major: a `Table` is a list of
  named columns, each a list of `Value`s.  A `Value` is a string, an
  integer, or a missing value (`null`, modelling `NaN`/`NaT`/`None`).
  Numbers are modelled by `Int` (the exact fragment; dtype-dependent
  floating behaviour and int64 wraparound are outside the model).
* Cloud side effects (bucket/blob/dataset/query operations) and `print`
  calls are recorded as an explicit event trace (`Ev`).  The outcome of
  every backend call is an input, collected in an `Env`; an exception
  raised by the backend is an `Except.error` carrying its message.
* Python exceptions are values of `PyErr`; a raised exception is an
  `Except.error`.
* `pd.to_datetime` is modelled on string and missing date cells (the
  fragment exercised by CSV input); `Series` multiplication follows
  Python object semantics: number times number multiplies, a missing
  operand propagates (`NaN * x = NaN`), string times number is Python
  string repetition, and string times string (or string times missing)
  raises `TypeError`.
-/

/-- A cell value of the in-memory table: a string, an integer, or a
missing value (pandas `NaN`/`NaT`/`None`). -/
inductive Value where
  | str (s : String)
  | num (n : Int)
  | null
deriving DecidableEq

/-- A table (pandas `DataFrame`), column-major: named columns, each a
list of cell values.  Rows are read off positionally. -/
abbrev Table := List (String × List Value)

/-- `df[c]`: the values of the first column named `c`, if present. -/
def getColumn : Table → String → Option (List Value)
  | [], _ => none
  | (c, vs) :: t, c' => if c = c' then some vs else getColumn t c'

/-- `df[c] = vs`: replace the column named `c`, or append it at the end
if absent (pandas column assignment). -/
def setColumn : Table → String → List Value → Table
  | [], c, vs => [(c, vs)]
  | (c, ws) :: t, c', vs =>
      if c = c' then (c', vs) :: t else (c, ws) :: setColumn t c' vs

/-- The column names of a table, in order (`df.columns`). -/
def colNames (t : Table) : List String := t.map (fun p => p.1)

/-- `len(df)`: the number of rows (the length of the first column; all
columns of a well-formed frame have equal length). -/
def nrows : Table → Nat
  | [] => 0
  | (_, vs) :: _ => vs.length

/-- `df.isnull().sum().sum()`: the number of missing cells across all
columns. -/
def nullCount (t : Table) : Nat :=
  (t.map (fun p => p.2.countP (fun v => v == Value.null))).sum

/-- A calendar date as parsed by `pd.to_datetime`. -/
structure Date where
  year : Nat
  month : Nat
  day : Nat
deriving DecidableEq

/-- Left-pad a numeral to two digits (`strftime` `%m`, `%d`, ...). -/
def pad2 (n : Nat) : String :=
  if n < 10 then "0" ++ toString n else toString n

/-- Left-pad a numeral to four digits (`strftime` `%Y`). -/
def pad4 (n : Nat) : String :=
  if n < 10 then "000" ++ toString n
  else if n < 100 then "00" ++ toString n
  else if n < 1000 then "0" ++ toString n
  else toString n

/-- Split a character list into the groups separated by dashes. -/
def splitDash : List Char → List (List Char)
  | [] => [[]]
  | c :: cs =>
    if c = '-' then [] :: splitDash cs
    else
      match splitDash cs with
      | [] => [[c]]
      | g :: gs => (c :: g) :: gs

/-- Read a non-empty all-digit character group as a number. -/
def digitsToNat : List Char → Option Nat
  | [] => none
  | cs =>
    if cs.all (fun c => c.isDigit) then
      some (cs.foldl (fun n c => 10 * n + (c.toNat - 48)) 0)
    else none

/-- Parse a date string of the form `Y-M-D` with numeric fields and
in-range month and day (the ISO fragment of `pd.to_datetime`). -/
def parseDate (s : String) : Option Date :=
  match splitDash s.data with
  | [y, m, d] =>
    match digitsToNat y, digitsToNat m, digitsToNat d with
    | some yn, some mn, some dn =>
        if 1 ≤ mn ∧ mn ≤ 12 ∧ 1 ≤ dn ∧ dn ≤ 31 then some ⟨yn, mn, dn⟩
        else none
    | _, _, _ => none
  | _ => none

/-- `strftime('%Y-%m')`: the year-month rendering of a parsed date. -/
def formatYM (d : Date) : String := pad4 d.year ++ "-" ++ pad2 d.month

/-- A wall-clock timestamp at second resolution (`datetime.now()`). -/
structure Timestamp where
  year : Nat
  month : Nat
  day : Nat
  hour : Nat
  minute : Nat
  second : Nat
deriving DecidableEq

/-- `strftime('%Y%m%d')` on a timestamp. -/
def dateStamp (t : Timestamp) : String :=
  pad4 t.year ++ pad2 t.month ++ pad2 t.day

/-- `strftime('%Y%m%d_%H%M%S')` on a timestamp. -/
def timeStamp (t : Timestamp) : String :=
  dateStamp t ++ "_" ++ pad2 t.hour ++ pad2 t.minute ++ pad2 t.second

/-- A Python exception, as observed by the pipeline. -/
inductive PyErr where
  | keyError (col : String)
  | parseError
  | typeError
  | valueError
  | backend (msg : String)
deriving DecidableEq

/-- `str(e)` for an exception, as interpolated into printed messages. -/
def errStr : PyErr → String
  | PyErr.keyError c => "KeyError: " ++ c
  | PyErr.parseError => "ParseError"
  | PyErr.typeError => "TypeError"
  | PyErr.valueError => "ValueError"
  | PyErr.backend m => m

/-- One element of `pd.to_datetime(df['date']).dt.strftime('%Y-%m')`:
a missing cell stays missing (`NaT` renders to `NaN`); a string cell is
parsed and rendered as year-month, an unparseable one raising.  Numeric
date cells (pandas' epoch interpretation) lie outside the modelled
fragment. -/
def toMonthValue : Value → Except PyErr Value
  | Value.null => Except.ok Value.null
  | Value.str s =>
    match parseDate s with
    | some d => Except.ok (Value.str (formatYM d))
    | none => Except.error PyErr.parseError
  | Value.num _ => Except.error PyErr.parseError

/-- The whole-column date conversion: the series is computed in full
before being assigned, so any failing cell fails the whole column and
nothing is assigned. -/
def mapMonths : List Value → Except PyErr (List Value)
  | [] => Except.ok []
  | v :: vs =>
    match toMonthValue v with
    | Except.error e => Except.error e
    | Except.ok m =>
      match mapMonths vs with
      | Except.error e => Except.error e
      | Except.ok ms => Except.ok (m :: ms)

/-- Python string repetition `s * n` (empty for a non-positive count). -/
def strRepeat (s : String) (n : Int) : String :=
  String.join (List.replicate n.toNat s)

/-- Python `*` on two cell values, as applied elementwise by pandas on
object columns: numbers multiply exactly, a missing operand propagates
(`NaN * x = NaN`), string times number is string repetition, and string
times string or string times missing raises `TypeError`. -/
def pyMul : Value → Value → Except PyErr Value
  | Value.num a, Value.num b => Except.ok (Value.num (a * b))
  | Value.num _, Value.null => Except.ok Value.null
  | Value.null, Value.num _ => Except.ok Value.null
  | Value.null, Value.null => Except.ok Value.null
  | Value.str s, Value.num n => Except.ok (Value.str (strRepeat s n))
  | Value.num n, Value.str s => Except.ok (Value.str (strRepeat s n))
  | Value.str _, Value.str _ => Except.error PyErr.typeError
  | Value.str _, Value.null => Except.error PyErr.typeError
  | Value.null, Value.str _ => Except.error PyErr.typeError

/-- `df['sales_amount'] * df['quantity']` elementwise; the first raising
cell aborts the whole product series. -/
def mulColumns : List Value → List Value → Except PyErr (List Value)
  | [], _ => Except.ok []
  | _ :: _, [] => Except.ok []
  | a :: as, b :: bs =>
    match pyMul a b with
    | Except.error e => Except.error e
    | Except.ok v =>
      match mulColumns as bs with
      | Except.error e => Except.error e
      | Except.ok vs => Except.ok (v :: vs)

/-- Python `+` on two cells, as used by `Series.sum()` reducing an
object column: numbers add, strings concatenate, a mixed string/number
pair raises `TypeError` (missing cells are skipped before the
reduction, so the missing cases act as identities). -/
def pyAdd : Value → Value → Except PyErr Value
  | Value.num a, Value.num b => Except.ok (Value.num (a + b))
  | Value.str a, Value.str b => Except.ok (Value.str (a ++ b))
  | Value.num _, Value.str _ => Except.error PyErr.typeError
  | Value.str _, Value.num _ => Except.error PyErr.typeError
  | v, Value.null => Except.ok v
  | Value.null, v => Except.ok v

/-- Left-to-right reduction of the remaining cells with Python `+`. -/
def pySumAux : Value → List Value → Except PyErr Value
  | acc, [] => Except.ok acc
  | acc, v :: vs =>
    match pyAdd acc v with
    | Except.error e => Except.error e
    | Except.ok w => pySumAux w vs

/-- `df['sales_amount'].sum()`: pandas skips missing cells and reduces
the rest with Python `+`; an empty or all-missing column sums to `0`,
an all-string object column concatenates, and a mixed string/number
column raises `TypeError`. -/
def pySum (vs : List Value) : Except PyErr Value :=
  match vs.filter (fun v => !(v == Value.null)) with
  | [] => Except.ok (Value.num 0)
  | v :: rest => pySumAux v rest

/-- Applying the `,.2f` format specifier of the summary print to the
column sum: numbers format (their rendering is modelled plainly; the
separators and decimals are cosmetic), the float `NaN` renders as
`nan`, and a string raises `ValueError` (`,` and `f` are not valid
string format codes). -/
def formatCurrency : Value → Except PyErr String
  | Value.num n => Except.ok (toString n)
  | Value.null => Except.ok "nan"
  | Value.str _ => Except.error PyErr.valueError

/-- The five pipeline stages, in the order the driver invokes them. -/
inductive Stage where
  | extract
  | transform
  | loadStorage
  | loadBigquery
  | analytics
deriving DecidableEq

/-- An observable event of a run: a cloud operation or a printed line.
`stageStart s` is the opening `print` of stage `s`'s method (its header
line); `blobDelete` is the storage rollback operation, which exists in
the backend's API but is never emitted by this pipeline. -/
inductive Ev where
  | stageStart (s : Stage)
  | print (line : String)
  | bucketCheck (bucket : String)
  | bucketCreate (bucket : String) (location : String)
  | blobUpload (bucket : String) (blob : String) (content : String)
      (contentType : String)
  | blobDelete (bucket : String) (blob : String)
  | datasetGet (dataset : String)
  | datasetCreate (dataset : String) (location : String)
  | tableLoad (dataset : String) (table : String)
      (writeDisposition : String) (autodetect : Bool) (rowCount : Nat)
  | queryRun (queryName : String)
deriving DecidableEq

/-- The stage header an event marks, if any. -/
def stageOf : Ev → Option Stage
  | Ev.stageStart s => some s
  | _ => none

/-- The sequence of stage invocations recorded in a trace. -/
def stageInvocations (evs : List Ev) : List Stage :=
  evs.filterMap stageOf

/-- The canonical downstream order of the five stages. -/
def canonicalStages : List Stage :=
  [Stage.extract, Stage.transform, Stage.loadStorage, Stage.loadBigquery,
   Stage.analytics]

/-- The canonical order truncated at a given stage (the stages a run has
started once it is inside that stage). -/
def stagesUpTo : Stage → List Stage
  | Stage.extract => [Stage.extract]
  | Stage.transform => [Stage.extract, Stage.transform]
  | Stage.loadStorage => [Stage.extract, Stage.transform, Stage.loadStorage]
  | Stage.loadBigquery =>
      [Stage.extract, Stage.transform, Stage.loadStorage, Stage.loadBigquery]
  | Stage.analytics => canonicalStages

/-- `self.project_id`. -/
def project_id : String := "symbolic-axe-474621-e8"

/-- The warehouse dataset name (`dataset_id` in `load_to_bigquery`). -/
def dataset_id : String := "pedro_etl_demo"

/-- The warehouse table name (`table_id` in `load_to_bigquery`). -/
def table_id : String := "sales_data"

/-- `self.bucket_name`: fixed prefix plus the date of initialization. -/
def bucket_name (initTime : Timestamp) : String :=
  "pedro-etl-" ++ dateStamp initTime

/-- The blob name: fixed prefix plus a second-resolution timestamp. -/
def blob_name (now : Timestamp) : String :=
  "sales_data_" ++ timeStamp now ++ ".csv"

/-- The first analytics query's display name. -/
def queryAName : String := "Top Performing Products"

/-- The second analytics query's display name. -/
def queryBName : String := "Regional Sales Performance"

/-- The null-count warning line of `transform_data`. -/
def warnMsg (n : Nat) : String :=
  "Warning: Found " ++ (toString n ++ " null values")

/-- The `Data validation: ...` summary line of `transform_data`. -/
def validationMsg (txns : Nat) (total : String) : String :=
  "Data validation: " ++ (toString txns ++ (" transactions totaling $" ++
    total))

/-- The per-query error line of `run_analytics`. -/
def queryErrMsg (queryName msg : String) : String :=
  "Error executing query " ++ queryName ++ ": " ++ msg

/-- The driver's failure diagnostic line. -/
def pipelineFailMsg (e : PyErr) : String :=
  "Pipeline execution failed: " ++ errStr e

/-- The console URL printed on success, referencing the project. -/
def consoleUrl : String :=
  "https://console.cloud.google.com/bigquery?project=" ++ project_id

/-- The outcomes of every backend interaction of one run: what the file
system, clock, and the two cloud services return.  An `Except.error`
field is an exception raised by that call, carrying its message. -/
structure Env where
  filePath : String
  initTime : Timestamp
  now : Timestamp
  extractResult : Except String Table
  bucketExists : Bool
  uploadResult : Except String Unit
  datasetGetResult : Except String Unit
  datasetCreateResult : Except String Unit
  loadJobResult : Except String Unit
  query1Result : Except String Unit
  query2Result : Except String Unit

/-- `extract_data`: read the CSV into a table, print basic information,
and return it; a read failure propagates. -/
def extract_data (env : Env) : List Ev × Except PyErr Table :=
  let l0 : List Ev := [Ev.stageStart Stage.extract]
  match env.extractResult with
  | Except.error m => (l0, Except.error (PyErr.backend m))
  | Except.ok df =>
    (l0 ++
      [Ev.print ("Successfully loaded " ++ toString (nrows df) ++
         " rows from " ++ env.filePath),
       Ev.print ("Dataset shape: (" ++ toString (nrows df) ++ ", " ++
         toString df.length ++ ")"),
       Ev.print ("Columns: " ++ String.intercalate ", " (colNames df))],
     Except.ok df)

/-- `transform_data`: append the `month` column (whole-column date
conversion, assigned only if every cell converts), then the
`total_value` column (elementwise product, assigned only if every cell
multiplies), then the non-fatal null-count check, then the summary
line, whose column sum and currency formatting can themselves raise
(`TypeError` summing a mixed column, `ValueError` formatting a string
sum).  The middle component is the state of the caller's table when
the call returns (the in-place mutations performed so far). -/
def transform_data (df : Table) : List Ev × Table × Except PyErr Table :=
  let l0 : List Ev := [Ev.stageStart Stage.transform]
  match getColumn df "date" with
  | none => (l0, df, Except.error (PyErr.keyError "date"))
  | some dates =>
    match mapMonths dates with
    | Except.error e => (l0, df, Except.error e)
    | Except.ok months =>
      let df1 := setColumn df "month" months
      match getColumn df1 "sales_amount" with
      | none => (l0, df1, Except.error (PyErr.keyError "sales_amount"))
      | some sales =>
        match getColumn df1 "quantity" with
        | none => (l0, df1, Except.error (PyErr.keyError "quantity"))
        | some qtys =>
          match mulColumns sales qtys with
          | Except.error e => (l0, df1, Except.error e)
          | Except.ok totals =>
            let df2 := setColumn df1 "total_value" totals
            let nulls := nullCount df2
            let warnLog : List Ev :=
              if 0 < nulls then [Ev.print (warnMsg nulls)] else []
            match pySum ((getColumn df2 "sales_amount").getD []) with
            | Except.error e => (l0 ++ warnLog, df2, Except.error e)
            | Except.ok total =>
              match formatCurrency total with
              | Except.error e => (l0 ++ warnLog, df2, Except.error e)
              | Except.ok totalStr =>
                (l0 ++ warnLog ++
                   [Ev.print (validationMsg (nrows df2) totalStr)],
                 df2, Except.ok df2)

/-- The CSV rendering of one cell (`df.to_csv`); missing is empty. -/
def csvCell : Value → String
  | Value.str s => s
  | Value.num n => toString n
  | Value.null => ""

/-- The CSV header line: the column names, comma-separated, with no
index column. -/
def csvHeader (t : Table) : String :=
  String.intercalate "," (colNames t)

/-- The `i`-th CSV data line: the `i`-th cell of every column. -/
def csvRow (t : Table) (i : Nat) : String :=
  String.intercalate "," (t.map (fun p => csvCell (p.2.getD i Value.null)))

/-- All lines of the CSV serialization: header then one line per row. -/
def csvLines (t : Table) : List String :=
  csvHeader t :: (List.range (nrows t)).map (csvRow t)

/-- `df.to_csv(index=False)`. -/
def toCsv (t : Table) : String :=
  String.intercalate "\n" (csvLines t) ++ "\n"

/-- `load_to_storage`: check the bucket, create it in `US` only if
absent, and upload the CSV serialization under a timestamped blob name
with content type `text/csv`; an upload failure is printed and
re-raised. -/
def load_to_storage (env : Env) (df : Table) : List Ev × Except PyErr Unit :=
  let bname := bucket_name env.initTime
  let evs :=
    [Ev.stageStart Stage.loadStorage, Ev.bucketCheck bname] ++
    (if env.bucketExists then
       [Ev.print ("Using existing storage bucket: " ++ bname)]
     else
       [Ev.bucketCreate bname "US",
        Ev.print ("Created new storage bucket: " ++ bname)]) ++
    [Ev.blobUpload bname (blob_name env.now) (toCsv df) "text/csv"]
  match env.uploadResult with
  | Except.ok _ =>
    (evs ++ [Ev.print ("Successfully uploaded file: " ++ blob_name env.now)],
     Except.ok ())
  | Except.error m =>
    (evs ++ [Ev.print ("Error uploading to Cloud Storage: " ++ m)],
     Except.error (PyErr.backend m))

/-- `load_to_bigquery`: try to fetch the dataset; on ANY fetch failure
(the inner `except` is bare) attempt to create it in `US`; then submit
the truncate-and-load job with schema autodetection and wait for it.
Any failure is printed and re-raised. -/
def load_to_bigquery (env : Env) (df : Table) : List Ev × Except PyErr Unit :=
  let l0 : List Ev := [Ev.stageStart Stage.loadBigquery, Ev.datasetGet dataset_id]
  match env.datasetGetResult with
  | Except.ok _ =>
    let l1 := l0 ++ [Ev.print ("Using existing BigQuery dataset: " ++ dataset_id)]
    match env.loadJobResult with
    | Except.ok _ =>
      (l1 ++ [Ev.tableLoad dataset_id table_id "WRITE_TRUNCATE" true (nrows df),
              Ev.print ("Successfully loaded " ++ toString (nrows df) ++
                " rows to BigQuery table: " ++ table_id)],
       Except.ok ())
    | Except.error m =>
      (l1 ++ [Ev.tableLoad dataset_id table_id "WRITE_TRUNCATE" true (nrows df),
              Ev.print ("Error loading to BigQuery: " ++ m)],
       Except.error (PyErr.backend m))
  | Except.error _ =>
    let l1 := l0 ++ [Ev.datasetCreate dataset_id "US"]
    match env.datasetCreateResult with
    | Except.error m =>
      (l1 ++ [Ev.print ("Error loading to BigQuery: " ++ m)],
       Except.error (PyErr.backend m))
    | Except.ok _ =>
      let l2 := l1 ++ [Ev.print ("Created new BigQuery dataset: " ++ dataset_id)]
      match env.loadJobResult with
      | Except.ok _ =>
        (l2 ++ [Ev.tableLoad dataset_id table_id "WRITE_TRUNCATE" true (nrows df),
                Ev.print ("Successfully loaded " ++ toString (nrows df) ++
                  " rows to BigQuery table: " ++ table_id)],
         Except.ok ())
      | Except.error m =>
        (l2 ++ [Ev.tableLoad dataset_id table_id "WRITE_TRUNCATE" true (nrows df),
                Ev.print ("Error loading to BigQuery: " ++ m)],
         Except.error (PyErr.backend m))

/-- One iteration of `run_analytics`'s query loop: execute the query and
print its rows, with its own try/except, so a failure is printed and
swallowed (the per-row result lines come from the backend and are not
modelled). -/
def runOneQuery (queryName : String) (res : Except String Unit) : List Ev :=
  [Ev.print ("Executing query: " ++ queryName), Ev.queryRun queryName] ++
  (match res with
   | Except.ok _ => []
   | Except.error m => [Ev.print (queryErrMsg queryName m)])

/-- `run_analytics`: run the two fixed queries in order; each failure is
caught inside the loop, so the function itself never raises. -/
def run_analytics (q1 q2 : Except String Unit) : List Ev :=
  [Ev.stageStart Stage.analytics] ++
  runOneQuery queryAName q1 ++ runOneQuery queryBName q2

/-- `print("=" * 50)`: the banner separator line. -/
def sepLine : String := String.join (List.replicate 50 "=")

/-- `run_pipeline`: the driver.  Runs the five stages in order inside
one try/except; the first raising stage aborts the run, prints the
failure diagnostic, and returns `False`; on success the summary and the
console URL are printed and the run returns `True`. -/
def run_pipeline (env : Env) : List Ev × Bool :=
  let l0 : List Ev :=
    [Ev.print "Starting ETL pipeline execution...",
     Ev.print sepLine]
  let ex := extract_data env
  match ex.2 with
  | Except.error e => (l0 ++ ex.1 ++ [Ev.print (pipelineFailMsg e)], false)
  | Except.ok raw =>
    let tr := transform_data raw
    match tr.2.2 with
    | Except.error e =>
      (l0 ++ ex.1 ++ tr.1 ++ [Ev.print (pipelineFailMsg e)], false)
    | Except.ok processed =>
      let st := load_to_storage env processed
      match st.2 with
      | Except.error e =>
        (l0 ++ ex.1 ++ tr.1 ++ st.1 ++ [Ev.print (pipelineFailMsg e)], false)
      | Except.ok _ =>
        let bq := load_to_bigquery env processed
        match bq.2 with
        | Except.error e =>
          (l0 ++ ex.1 ++ tr.1 ++ st.1 ++ bq.1 ++
             [Ev.print (pipelineFailMsg e)], false)
        | Except.ok _ =>
          let an := run_analytics env.query1Result env.query2Result
          (l0 ++ ex.1 ++ tr.1 ++ st.1 ++ bq.1 ++ an ++
             [Ev.print "ETL pipeline completed successfully",
              Ev.print ("Data available at: " ++ consoleUrl)],
           true)

/-- Observer: which stage (if any) a run fails in, and with what error.
Mirrors the driver's cascade; used only to state properties of
`run_pipeline`. -/
def pipelineOutcome (env : Env) : Except (Stage × PyErr) Unit :=
  match (extract_data env).2 with
  | Except.error e => Except.error (Stage.extract, e)
  | Except.ok raw =>
    match (transform_data raw).2.2 with
    | Except.error e => Except.error (Stage.transform, e)
    | Except.ok processed =>
      match (load_to_storage env processed).2 with
      | Except.error e => Except.error (Stage.loadStorage, e)
      | Except.ok _ =>
        match (load_to_bigquery env processed).2 with
        | Except.error e => Except.error (Stage.loadBigquery, e)
        | Except.ok _ => Except.ok ()

/-- The sequence of query executions recorded in a trace. -/
def queryInvocations (evs : List Ev) : List String :=
  evs.filterMap (fun e =>
    match e with
    | Ev.queryRun q => some q
    | _ => none)

/-! ## Concrete test fixtures -/

/-- A well-formed one-row sales table (the spec's scenario input). -/
def dfW1 : Table :=
  [("date", [Value.str "2024-01-15"]),
   ("sales_amount", [Value.num 100]),
   ("quantity", [Value.num 2]),
   ("product", [Value.str "X"]),
   ("customer_region", [Value.str "East"])]

/-- The transformed version of `dfW1`. -/
def outW1 : Table :=
  [("date", [Value.str "2024-01-15"]),
   ("sales_amount", [Value.num 100]),
   ("quantity", [Value.num 2]),
   ("product", [Value.str "X"]),
   ("customer_region", [Value.str "East"]),
   ("month", [Value.str "2024-01"]),
   ("total_value", [Value.num 200])]

/-- A table whose only date cell is an unparseable string. -/
def dfBad : Table :=
  [("date", [Value.str "bad-date"]),
   ("sales_amount", [Value.num 1]),
   ("quantity", [Value.num 1])]

/-- A table whose sales and quantity cells are both strings, so the
elementwise product raises `TypeError` after the dates converted. -/
def dfStrStr : Table :=
  [("date", [Value.str "2024-01-15"]),
   ("sales_amount", [Value.str "a"]),
   ("quantity", [Value.str "b"])]

/-- A table with a non-numeric (string) `sales_amount` next to an
integer `quantity`. -/
def dfCex : Table :=
  [("date", [Value.str "2024-01-15"]),
   ("sales_amount", [Value.str "ab"]),
   ("quantity", [Value.num 2])]

/-- The mutated state the transformer leaves behind on `dfCex`: the
repeated string is already stored in `total_value` when the summary
line raises. -/
def outCex : Table :=
  [("date", [Value.str "2024-01-15"]),
   ("sales_amount", [Value.str "ab"]),
   ("quantity", [Value.num 2]),
   ("month", [Value.str "2024-01"]),
   ("total_value", [Value.str "abab"])]

/-- A table with a numeric `sales_amount` next to a non-numeric
(string) `quantity`. -/
def dfCex2 : Table :=
  [("date", [Value.str "2024-01-15"]),
   ("sales_amount", [Value.num 2]),
   ("quantity", [Value.str "ab"])]

/-- The table the transformer actually produces from `dfCex2`. -/
def outCex2 : Table :=
  [("date", [Value.str "2024-01-15"]),
   ("sales_amount", [Value.num 2]),
   ("quantity", [Value.str "ab"]),
   ("month", [Value.str "2024-01"]),
   ("total_value", [Value.str "abab"])]

/-- A two-row table with missing cells (a missing date and a missing
quantity). -/
def dfNulls : Table :=
  [("date", [Value.str "2024-01-15", Value.null]),
   ("sales_amount", [Value.num 100, Value.num 50]),
   ("quantity", [Value.num 2, Value.null])]

/-- The table the transformer produces from `dfNulls`: the missing date
yields a missing month, the missing quantity a missing product. -/
def outNulls : Table :=
  [("date", [Value.str "2024-01-15", Value.null]),
   ("sales_amount", [Value.num 100, Value.num 50]),
   ("quantity", [Value.num 2, Value.null]),
   ("month", [Value.str "2024-01", Value.null]),
   ("total_value", [Value.num 200, Value.null])]

/-- A baseline environment in which every backend call succeeds and the
extracted table is `dfW1`. -/
def envOk : Env where
  filePath := "sample_sales_data.csv"
  initTime := ⟨2024, 1, 15, 9, 30, 0⟩
  now := ⟨2024, 1, 15, 9, 30, 5⟩
  extractResult := Except.ok dfW1
  bucketExists := false
  uploadResult := Except.ok ()
  datasetGetResult := Except.ok ()
  datasetCreateResult := Except.ok ()
  loadJobResult := Except.ok ()
  query1Result := Except.ok ()
  query2Result := Except.ok ()

/-- `envOk` with a failing warehouse load job. -/
def envBq : Env := { envOk with loadJobResult := Except.error "network error" }

/-- `envOk` with a failing storage upload. -/
def envUp : Env := { envOk with uploadResult := Except.error "disk full" }

/-- `envOk` with both analytics queries failing. -/
def envQF : Env :=
  { envOk with
    query1Result := Except.error "boom1"
    query2Result := Except.error "boom2" }

/-- `envOk` with a transient (non-not-found) dataset fetch failure. -/
def envTransient : Env :=
  { envOk with datasetGetResult := Except.error "503 service unavailable" }

/-! ## Basic lemmas about the table operations -/

theorem getColumn_setColumn_self (t : Table) (c : String) (vs : List Value) :
    getColumn (setColumn t c vs) c = some vs := by
  induction t with
  | nil => simp [setColumn, getColumn]
  | cons p t ih =>
    obtain ⟨c0, ws⟩ := p
    by_cases h : c0 = c
    · subst h; simp [setColumn, getColumn]
    · simp [setColumn, getColumn, h, ih]

theorem getColumn_setColumn_ne (t : Table) (c c' : String) (vs : List Value)
    (h : c' ≠ c) : getColumn (setColumn t c vs) c' = getColumn t c' := by
  have hcc : c ≠ c' := fun hh => h hh.symm
  induction t with
  | nil => simp [setColumn, getColumn, hcc]
  | cons p t ih =>
    obtain ⟨c0, ws⟩ := p
    by_cases h0 : c0 = c
    · subst h0
      simp [setColumn, getColumn, hcc]
    · simp [setColumn, getColumn, h0, ih]

theorem length_setColumn_of_mem (t : Table) (c : String) (vs : List Value)
    (h : c ∈ colNames t) : (setColumn t c vs).length = t.length := by
  induction t with
  | nil => simp [colNames] at h
  | cons p t ih =>
    obtain ⟨c0, ws⟩ := p
    by_cases h0 : c0 = c
    · simp [setColumn, h0]
    · have hcol : colNames ((c0, ws) :: t) = c0 :: colNames t := rfl
      rw [hcol, List.mem_cons] at h
      rcases h with h | h
      · exact absurd h.symm h0
      · simp [setColumn, h0, ih h]

theorem length_setColumn_of_not_mem (t : Table) (c : String) (vs : List Value)
    (h : c ∉ colNames t) : (setColumn t c vs).length = t.length + 1 := by
  induction t with
  | nil => simp [setColumn]
  | cons p t ih =>
    obtain ⟨c0, ws⟩ := p
    have hcol : colNames ((c0, ws) :: t) = c0 :: colNames t := rfl
    rw [hcol, List.mem_cons] at h
    push_neg at h
    simp only [setColumn]
    rw [if_neg (fun hh => h.1 hh.symm)]
    simp [ih h.2]

/-! ## Lemmas about the date conversion and the elementwise product -/

theorem toMonthValue_error {v : Value} {e : PyErr}
    (h : toMonthValue v = Except.error e) : e = PyErr.parseError := by
  cases v with
  | null => simp [toMonthValue] at h
  | num n => simp [toMonthValue] at h; exact h.symm
  | str s =>
    rcases hp : parseDate s with _ | d
    · simp [toMonthValue, hp] at h
      exact h.symm
    · simp [toMonthValue, hp] at h

theorem mapMonths_ok_get {ds ms : List Value} (h : mapMonths ds = Except.ok ms) :
    ∀ (i : Nat) (v : Value), ds[i]? = some v →
      ∃ m, ms[i]? = some m ∧ toMonthValue v = Except.ok m := by
  induction ds generalizing ms with
  | nil => intro i v hv; simp at hv
  | cons d ds ih =>
    intro i v hv
    unfold mapMonths at h
    rcases hm : toMonthValue d with e | m <;> rw [hm] at h
    · simp at h
    · rcases hrest : mapMonths ds with e | ms' <;> rw [hrest] at h
      · simp at h
      · simp at h
        subst h
        cases i with
        | zero =>
          simp at hv
          subst hv
          exact ⟨m, by simp, hm⟩
        | succ i =>
          simp at hv
          obtain ⟨m', hm', hv'⟩ := ih hrest i v hv
          exact ⟨m', by simpa using hm', hv'⟩

theorem mapMonths_error_of_get {ds : List Value} {i : Nat} {v : Value} {e : PyErr}
    (hv : ds[i]? = some v) (he : toMonthValue v = Except.error e) :
    mapMonths ds = Except.error PyErr.parseError := by
  induction ds generalizing i with
  | nil => simp at hv
  | cons d ds ih =>
    unfold mapMonths
    cases i with
    | zero =>
      simp at hv
      subst hv
      rw [he, toMonthValue_error he]
    | succ i =>
      simp at hv
      rcases hm : toMonthValue d with e' | m
      · rw [toMonthValue_error hm]
      · rw [ih hv]

theorem pyMul_error {x y : Value} {e : PyErr}
    (h : pyMul x y = Except.error e) : e = PyErr.typeError := by
  cases x <;> cases y <;> simp [pyMul] at h <;> exact h.symm

theorem mulColumns_ok_get {xs ys ts : List Value}
    (h : mulColumns xs ys = Except.ok ts) :
    ∀ (i : Nat) (x y : Value), xs[i]? = some x → ys[i]? = some y →
      ∃ v, ts[i]? = some v ∧ pyMul x y = Except.ok v := by
  induction xs generalizing ys ts with
  | nil => intro i x y hx hy; simp at hx
  | cons a xs ih =>
    intro i x y hx hy
    cases ys with
    | nil => simp at hy
    | cons b ys =>
      unfold mulColumns at h
      rcases hm : pyMul a b with e | v <;> rw [hm] at h
      · simp at h
      · rcases hrest : mulColumns xs ys with e | ts' <;> rw [hrest] at h
        · simp at h
        · simp at h
          subst h
          cases i with
          | zero =>
            simp at hx hy
            subst hx; subst hy
            exact ⟨v, by simp, hm⟩
          | succ i =>
            simp at hx hy
            obtain ⟨v', hv', hp'⟩ := ih hrest i x y hx hy
            exact ⟨v', by simpa using hv', hp'⟩

theorem mulColumns_error_of_get {xs ys : List Value} {i : Nat} {x y : Value}
    {e : PyErr} (hx : xs[i]? = some x) (hy : ys[i]? = some y)
    (he : pyMul x y = Except.error e) :
    mulColumns xs ys = Except.error PyErr.typeError := by
  induction xs generalizing ys i with
  | nil => simp at hx
  | cons a xs ih =>
    cases ys with
    | nil => simp at hy
    | cons b ys =>
      unfold mulColumns
      cases i with
      | zero =>
        simp at hx hy
        subst hx; subst hy
        rw [he, pyMul_error he]
      | succ i =>
        simp at hx hy
        rcases hm : pyMul a b with e' | v
        · rw [pyMul_error hm]
        · rw [ih hx hy]

/-! ## String disambiguation lemmas (distinct printed lines) -/

theorem string_head_ne (a b : String) (c d : Char)
    (ha : a.data.head? = some c) (hb : b.data.head? = some d) (h : c ≠ d) :
    a ≠ b := by
  intro hab
  rw [hab, hb] at ha
  exact h (Option.some.inj ha).symm

theorem lit_append_head (p s : String) (c : Char) (hp : p.data.head? = some c) :
    (p ++ s).data.head? = some c := by
  rw [String.data_append]
  rcases hd : p.data with _ | ⟨x, xs⟩
  · rw [hd] at hp; simp at hp
  · rw [hd] at hp
    simp at hp
    simp [hp]

theorem warnMsg_ne_validationMsg (n txns : Nat) (total : String) :
    warnMsg n ≠ validationMsg txns total :=
  string_head_ne _ _ 'W' 'D'
    (lit_append_head _ _ _ (by decide))
    (lit_append_head _ _ _ (by decide)) (by decide)

/-! ## Stage invocation lemmas -/

theorem stageInvocations_append (a b : List Ev) :
    stageInvocations (a ++ b) = stageInvocations a ++ stageInvocations b := by
  simp [stageInvocations]

theorem stageInvocations_extract (env : Env) :
    stageInvocations (extract_data env).1 = [Stage.extract] := by
  simp only [extract_data]
  rcases h : env.extractResult with m | df <;>
    simp [h, stageInvocations, stageOf]

theorem stageInvocations_transform (df : Table) :
    stageInvocations (transform_data df).1 = [Stage.transform] := by
  simp only [transform_data]
  repeat' split
  all_goals simp [stageInvocations, stageOf]

theorem stageInvocations_storage (env : Env) (df : Table) :
    stageInvocations (load_to_storage env df).1 = [Stage.loadStorage] := by
  simp only [load_to_storage]
  repeat' split
  all_goals simp [stageInvocations, stageOf]

theorem stageInvocations_bigquery (env : Env) (df : Table) :
    stageInvocations (load_to_bigquery env df).1 = [Stage.loadBigquery] := by
  simp only [load_to_bigquery]
  repeat' split
  all_goals simp [stageInvocations, stageOf]

theorem stageInvocations_analytics (q1 q2 : Except String Unit) :
    stageInvocations (run_analytics q1 q2) = [Stage.analytics] := by
  simp only [run_analytics, runOneQuery]
  rcases q1 with m1 | u1 <;> rcases q2 with m2 | u2 <;>
    simp [stageInvocations, stageOf]

theorem stageInvocations_nil : stageInvocations [] = [] := rfl

theorem stageInvocations_cons_print (s : String) (evs : List Ev) :
    stageInvocations (Ev.print s :: evs) = stageInvocations evs := rfl

theorem stageStart_mem_invocations {evs : List Ev} {s : Stage}
    (h : Ev.stageStart s ∈ evs) : s ∈ stageInvocations evs := by
  simp only [stageInvocations, List.mem_filterMap]
  exact ⟨Ev.stageStart s, h, rfl⟩

theorem blobDelete_not_mem_extract (env : Env) (b o : String) :
    Ev.blobDelete b o ∉ (extract_data env).1 := by
  simp only [extract_data]
  rcases h : env.extractResult with m | df <;> simp [h]

theorem blobDelete_not_mem_transform (df : Table) (b o : String) :
    Ev.blobDelete b o ∉ (transform_data df).1 := by
  simp only [transform_data]
  repeat' split
  all_goals simp

theorem blobDelete_not_mem_storage (env : Env) (df : Table) (b o : String) :
    Ev.blobDelete b o ∉ (load_to_storage env df).1 := by
  simp only [load_to_storage]
  repeat' split
  all_goals simp

theorem blobDelete_not_mem_bigquery (env : Env) (df : Table) (b o : String) :
    Ev.blobDelete b o ∉ (load_to_bigquery env df).1 := by
  simp only [load_to_bigquery]
  repeat' split
  all_goals simp

theorem blobDelete_not_mem_analytics (q1 q2 : Except String Unit) (b o : String) :
    Ev.blobDelete b o ∉ run_analytics q1 q2 := by
  simp only [run_analytics, runOneQuery]
  rcases q1 with m1 | u1 <;> rcases q2 with m2 | u2 <;> simp

theorem blobUpload_mem_storage (env : Env) (df : Table) :
    Ev.blobUpload (bucket_name env.initTime) (blob_name env.now)
      (toCsv df) "text/csv" ∈ (load_to_storage env df).1 := by
  simp only [load_to_storage]
  repeat' split
  all_goals simp

/-- C3: the driver invokes the five stages strictly in the order
extract, transform, storage load, warehouse load, report, and no stage
is invoked twice (the recorded stage invocations of every run form a
duplicate-free prefix of the canonical order); if the warehouse load
fails after the earlier stages succeeded, the run stops with exactly the
first four stages invoked, the Reporter never starts, the run reports
failure, the already-completed storage upload is still in the trace, and
no rollback (blob deletion) is ever emitted. -/
theorem pipeline_stage_order (env : Env) :
    (stageInvocations (run_pipeline env).1 <+: canonicalStages ∧
      (stageInvocations (run_pipeline env).1).Nodup) ∧
    (∀ (raw processed : Table) (e : PyErr),
      (extract_data env).2 = Except.ok raw →
      (transform_data raw).2.2 = Except.ok processed →
      (load_to_storage env processed).2 = Except.ok () →
      (load_to_bigquery env processed).2 = Except.error e →
      stageInvocations (run_pipeline env).1 =
        [Stage.extract, Stage.transform, Stage.loadStorage,
         Stage.loadBigquery] ∧
      Ev.stageStart Stage.analytics ∉ (run_pipeline env).1 ∧
      Ev.blobUpload (bucket_name env.initTime) (blob_name env.now)
        (toCsv processed) "text/csv" ∈ (run_pipeline env).1 ∧
      (∀ (b o : String), Ev.blobDelete b o ∉ (run_pipeline env).1) ∧
      (run_pipeline env).2 = false) := by
  constructor
  · have hpre : stageInvocations (run_pipeline env).1 <+: canonicalStages := by
      simp only [run_pipeline]
      rcases hE : (extract_data env).2 with e | raw
      · simp only [hE, stageInvocations_append, stageInvocations_extract,
          stageInvocations_cons_print, stageInvocations_nil]
        decide
      · rcases hT : (transform_data raw).2.2 with e | processed
        · simp only [hE, hT, stageInvocations_append, stageInvocations_extract,
            stageInvocations_transform, stageInvocations_cons_print,
            stageInvocations_nil]
          decide
        · rcases hS : (load_to_storage env processed).2 with e | u
          · simp only [hE, hT, hS, stageInvocations_append,
              stageInvocations_extract, stageInvocations_transform,
              stageInvocations_storage, stageInvocations_cons_print,
              stageInvocations_nil]
            decide
          · rcases hB : (load_to_bigquery env processed).2 with e | u'
            · simp only [hE, hT, hS, hB, stageInvocations_append,
                stageInvocations_extract, stageInvocations_transform,
                stageInvocations_storage, stageInvocations_bigquery,
                stageInvocations_cons_print, stageInvocations_nil]
              decide
            · simp only [hE, hT, hS, hB, stageInvocations_append,
                stageInvocations_extract, stageInvocations_transform,
                stageInvocations_storage, stageInvocations_bigquery,
                stageInvocations_analytics, stageInvocations_cons_print,
                stageInvocations_nil]
              decide
    exact ⟨hpre, hpre.sublist.nodup (by decide)⟩
  · intro raw processed e hE hT hS hB
    have htr : (run_pipeline env).1 =
        [Ev.print "Starting ETL pipeline execution...",
         Ev.print sepLine] ++
        (extract_data env).1 ++ (transform_data raw).1 ++
        (load_to_storage env processed).1 ++
        (load_to_bigquery env processed).1 ++
        [Ev.print (pipelineFailMsg e)] := by
      simp only [run_pipeline, hE, hT, hS, hB]
    have hres : (run_pipeline env).2 = false := by
      simp only [run_pipeline, hE, hT, hS, hB]
    refine ⟨?_, ?_, ?_, ?_, hres⟩
    · rw [htr]
      simp only [stageInvocations_append, stageInvocations_extract,
        stageInvocations_transform, stageInvocations_storage,
        stageInvocations_bigquery, stageInvocations_cons_print,
        stageInvocations_nil]
      decide
    · intro hmem
      have h1 := stageStart_mem_invocations hmem
      rw [htr] at h1
      simp only [stageInvocations_append, stageInvocations_extract,
        stageInvocations_transform, stageInvocations_storage,
        stageInvocations_bigquery, stageInvocations_cons_print,
        stageInvocations_nil] at h1
      revert h1
      decide
    · rw [htr]
      simp [blobUpload_mem_storage env processed]
    · intro b o
      rw [htr]
      simp only [List.mem_append]
      push_neg
      refine ⟨⟨⟨⟨⟨?_, ?_⟩, ?_⟩, ?_⟩, ?_⟩, ?_⟩
      · simp
      · exact blobDelete_not_mem_extract env b o
      · exact blobDelete_not_mem_transform raw b o
      · exact blobDelete_not_mem_storage env processed b o
      · exact blobDelete_not_mem_bigquery env processed b o
      · simp

theorem mapMonths_error_val {ds : List Value} {e : PyErr}
    (h : mapMonths ds = Except.error e) : e = PyErr.parseError := by
  induction ds with
  | nil => simp [mapMonths] at h
  | cons d ds ih =>
    unfold mapMonths at h
    rcases hm : toMonthValue d with e' | m <;> rw [hm] at h
    · simp at h
      rw [← h]
      exact toMonthValue_error hm
    · rcases hrest : mapMonths ds with e' | ms <;> rw [hrest] at h
      · simp at h
        rw [h] at hrest
        exact ih hrest
      · simp at h

theorem mulColumns_error_val {xs ys : List Value} {e : PyErr}
    (h : mulColumns xs ys = Except.error e) : e = PyErr.typeError := by
  induction xs generalizing ys with
  | nil => simp [mulColumns] at h
  | cons a xs ih =>
    cases ys with
    | nil => simp [mulColumns] at h
    | cons b ys =>
      unfold mulColumns at h
      rcases hm : pyMul a b with e' | v <;> rw [hm] at h
      · simp at h
        rw [← h]
        exact pyMul_error hm
      · rcases hrest : mulColumns xs ys with e' | vs <;> rw [hrest] at h
        · simp at h
          rw [h] at hrest
          exact ih hrest
        · simp at h

theorem transform_ok_shape {df : Table} {evs : List Ev} {st out : Table}
    (h : transform_data df = (evs, st, Except.ok out)) :
    ∃ dates ms sales qtys totals total totalStr,
      getColumn df "date" = some dates ∧
      mapMonths dates = Except.ok ms ∧
      getColumn (setColumn df "month" ms) "sales_amount" = some sales ∧
      getColumn (setColumn df "month" ms) "quantity" = some qtys ∧
      mulColumns sales qtys = Except.ok totals ∧
      pySum ((getColumn out "sales_amount").getD []) = Except.ok total ∧
      formatCurrency total = Except.ok totalStr ∧
      st = out ∧
      out = setColumn (setColumn df "month" ms) "total_value" totals ∧
      evs = [Ev.stageStart Stage.transform] ++
        (if 0 < nullCount out then [Ev.print (warnMsg (nullCount out))]
         else []) ++
        [Ev.print (validationMsg (nrows out) totalStr)] := by
  rcases hd : getColumn df "date" with _ | dates
  · simp only [transform_data, hd] at h
    simp at h
  · rcases hm : mapMonths dates with e | ms
    · simp only [transform_data, hd, hm] at h
      simp at h
    · rcases hs : getColumn (setColumn df "month" ms) "sales_amount"
        with _ | sales
      · simp only [transform_data, hd, hm, hs] at h
        simp at h
      · rcases hq : getColumn (setColumn df "month" ms) "quantity"
          with _ | qtys
        · simp only [transform_data, hd, hm, hs, hq] at h
          simp at h
        · rcases ht : mulColumns sales qtys with e | totals
          · simp only [transform_data, hd, hm, hs, hq, ht] at h
            simp at h
          · rcases hsum : pySum ((getColumn
                (setColumn (setColumn df "month" ms) "total_value" totals)
                "sales_amount").getD []) with e | total
            · simp only [transform_data, hd, hm, hs, hq, ht, hsum] at h
              simp at h
            · rcases hfmt : formatCurrency total with e | totalStr
              · simp only [transform_data, hd, hm, hs, hq, ht, hsum,
                  hfmt] at h
                simp at h
              · simp only [transform_data, hd, hm, hs, hq, ht, hsum,
                  hfmt, Prod.mk.injEq] at h
                obtain ⟨hevs, hst, hout⟩ := h
                simp only [Except.ok.injEq] at hout
                subst hout
                refine ⟨dates, ms, sales, qtys, totals, total, totalStr,
                  ?_, ?_, ?_, ?_, ?_, ?_, ?_, ?_, ?_, ?_⟩
                · rfl
                · exact hm
                · exact hs
                · exact hq
                · exact ht
                · exact hsum
                · exact hfmt
                · exact hst.symm
                · rfl
                · exact hevs.symm

theorem pyAdd_error {x y : Value} {e : PyErr}
    (h : pyAdd x y = Except.error e) : e = PyErr.typeError := by
  cases x <;> cases y <;> simp [pyAdd] at h <;> exact h.symm

theorem pySumAux_error_val {acc : Value} {vs : List Value} {e : PyErr}
    (h : pySumAux acc vs = Except.error e) : e = PyErr.typeError := by
  induction vs generalizing acc with
  | nil => simp [pySumAux] at h
  | cons v vs ih =>
    unfold pySumAux at h
    rcases ha : pyAdd acc v with e' | w <;> rw [ha] at h
    · simp at h
      rw [h] at ha
      exact pyAdd_error ha
    · exact ih h

theorem pySum_error_val {vs : List Value} {e : PyErr}
    (h : pySum vs = Except.error e) : e = PyErr.typeError := by
  unfold pySum at h
  rcases hf : vs.filter (fun v => !(v == Value.null)) with _ | ⟨v, rest⟩ <;>
    rw [hf] at h
  · simp at h
  · exact pySumAux_error_val h

theorem formatCurrency_error_val {v : Value} {e : PyErr}
    (h : formatCurrency v = Except.error e) : e = PyErr.valueError := by
  cases v <;> simp [formatCurrency] at h
  exact h.symm

theorem transform_error_shape {df : Table} {evs : List Ev} {st : Table}
    {e : PyErr} (h : transform_data df = (evs, st, Except.error e)) :
    e = PyErr.parseError ∨ e = PyErr.typeError ∨ e = PyErr.valueError ∨
      e = PyErr.keyError "date" ∨ e = PyErr.keyError "sales_amount" ∨
      e = PyErr.keyError "quantity" := by
  rcases hd : getColumn df "date" with _ | dates
  · simp only [transform_data, hd] at h
    simp at h
    right; right; right; left
    exact h.2.2.symm
  · rcases hm : mapMonths dates with e' | ms
    · simp only [transform_data, hd, hm] at h
      simp at h
      left
      rw [← h.2.2]
      exact mapMonths_error_val hm
    · rcases hs : getColumn (setColumn df "month" ms) "sales_amount"
        with _ | sales
      · simp only [transform_data, hd, hm, hs] at h
        simp at h
        right; right; right; right; left
        exact h.2.2.symm
      · rcases hq : getColumn (setColumn df "month" ms) "quantity"
          with _ | qtys
        · simp only [transform_data, hd, hm, hs, hq] at h
          simp at h
          right; right; right; right; right
          exact h.2.2.symm
        · rcases ht : mulColumns sales qtys with e' | totals
          · simp only [transform_data, hd, hm, hs, hq, ht] at h
            simp at h
            right; left
            rw [← h.2.2]
            exact mulColumns_error_val ht
          · rcases hsum : pySum ((getColumn
                (setColumn (setColumn df "month" ms) "total_value" totals)
                "sales_amount").getD []) with e' | total
            · simp only [transform_data, hd, hm, hs, hq, ht, hsum] at h
              simp at h
              right; left
              rw [← h.2.2]
              exact pySum_error_val hsum
            · rcases hfmt : formatCurrency total with e' | totalStr
              · simp only [transform_data, hd, hm, hs, hq, ht, hsum,
                  hfmt] at h
                simp at h
                right; right; left
                rw [← h.2.2]
                exact formatCurrency_error_val hfmt
              · simp only [transform_data, hd, hm, hs, hq, ht, hsum,
                  hfmt] at h
                simp at h

/-- C2: after a successful transformation, the `month` column holds, for
every row whose date cell is a parseable string, the year-month
rendering of that parsed date; and if any date cell is an unparseable
string, the transformation fails for the whole batch with a parse error
and the caller's table is left exactly as it was (no partial output). -/
theorem transform_month_column (df : Table) (dates : List Value)
    (hd : getColumn df "date" = some dates) :
    (∀ (evs : List Ev) (st out : Table),
      transform_data df = (evs, st, Except.ok out) →
      ∃ ms, mapMonths dates = Except.ok ms ∧
        getColumn out "month" = some ms ∧
        ∀ (i : Nat) (s : String) (d : Date),
          dates[i]? = some (Value.str s) → parseDate s = some d →
          ms[i]? = some (Value.str (formatYM d))) ∧
    (∀ (i : Nat) (s : String),
      dates[i]? = some (Value.str s) → parseDate s = none →
      transform_data df =
        ([Ev.stageStart Stage.transform], df,
          Except.error PyErr.parseError)) := by
  constructor
  · intro evs st out h
    obtain ⟨dates', ms, sales, qtys, totals, total, totalStr, hd', hm,
      hs, hq, ht, hsum, hfmt, hst, hout, hevs⟩ := transform_ok_shape h
    rw [hd] at hd'
    injection hd' with hdd
    subst hdd
    refine ⟨ms, hm, ?_, ?_⟩
    · rw [hout]
      rw [getColumn_setColumn_ne _ _ _ _ (by decide)]
      exact getColumn_setColumn_self _ _ _
    · intro i s d hi hp
      obtain ⟨m, hm1, hm2⟩ := mapMonths_ok_get hm i _ hi
      have hv : toMonthValue (Value.str s) =
          Except.ok (Value.str (formatYM d)) := by
        simp [toMonthValue, hp]
      rw [hv] at hm2
      injection hm2 with h2
      rw [← h2] at hm1
      exact hm1
  · intro i s hp hnone
    have he : toMonthValue (Value.str s) = Except.error PyErr.parseError := by
      simp [toMonthValue, hnone]
    have hm := mapMonths_error_of_get hp he
    simp only [transform_data, hd, hm]

/-- Witness for C2: the scenario row gives month `2024-01`, and the
unparseable-date table fails wholesale with an unchanged state. -/
theorem transform_month_column_witness :
    (∃ ms, getColumn outW1 "month" = some ms ∧
      ms[0]? = some (Value.str (formatYM ⟨2024, 1, 15⟩))) ∧
    transform_data dfBad =
      ([Ev.stageStart Stage.transform], dfBad,
        Except.error PyErr.parseError) := by
  constructor
  · obtain ⟨ms, hm, hcol, hpt⟩ :=
      (transform_month_column dfW1 [Value.str "2024-01-15"] rfl).1
        [Ev.stageStart Stage.transform, Ev.print (validationMsg 1 "100")]
        outW1 outW1 (by rfl)
    exact ⟨ms, hcol, hpt 0 "2024-01-15" ⟨2024, 1, 15⟩ rfl (by decide)⟩
  · exact (transform_month_column dfBad [Value.str "bad-date"] rfl).2
      0 "bad-date" rfl (by decide)

/-- C1 (amended): after a successful transformation, every row whose
sales and quantity cells are both numeric has `total_value` equal to
their exact product; and a row whose operand pair Python's `*` rejects
— string times string — makes the whole transformation fail with a
`TypeError` (once the date column converts).  A non-numeric operand
next to an integer, however, never makes the multiplication raise:
Python repeats the string.  A string `quantity` next to a numeric
`sales_amount` column then succeeds outright, storing the repeated
string in `total_value`; a string `sales_amount` fails only later, at
the summary line (summing or currency-formatting that column), with a
`TypeError` or `ValueError` unrelated to the multiplication (see the
counterexample). -/
theorem transform_total_value (df : Table) (dates sales qtys : List Value)
    (hd : getColumn df "date" = some dates)
    (hs : getColumn df "sales_amount" = some sales)
    (hq : getColumn df "quantity" = some qtys) :
    (∀ (evs : List Ev) (st out : Table),
      transform_data df = (evs, st, Except.ok out) →
      ∃ totals, getColumn out "total_value" = some totals ∧
        ∀ (i : Nat) (a b : Int),
          sales[i]? = some (Value.num a) → qtys[i]? = some (Value.num b) →
          totals[i]? = some (Value.num (a * b))) ∧
    ((∃ ms, mapMonths dates = Except.ok ms) →
     (∃ (i : Nat) (s u : String),
        sales[i]? = some (Value.str s) ∧ qtys[i]? = some (Value.str u)) →
     (transform_data df).2.2 = Except.error PyErr.typeError) := by
  constructor
  · intro evs st out h
    obtain ⟨dates', ms, sales', qtys', totals, total, totalStr, hd', hm,
      hs', hq', ht, hsum, hfmt, hst, hout, hevs⟩ := transform_ok_shape h
    rw [getColumn_setColumn_ne _ _ _ _ (by decide), hs] at hs'
    rw [getColumn_setColumn_ne _ _ _ _ (by decide), hq] at hq'
    injection hs' with hs2
    injection hq' with hq2
    subst hs2
    subst hq2
    refine ⟨totals, ?_, ?_⟩
    · rw [hout]
      exact getColumn_setColumn_self _ _ _
    · intro i a b hsa hqa
      obtain ⟨v, hv, hp⟩ := mulColumns_ok_get ht i _ _ hsa hqa
      rw [show pyMul (Value.num a) (Value.num b) =
        Except.ok (Value.num (a * b)) from rfl] at hp
      injection hp with hp2
      rw [← hp2] at hv
      exact hv
  · rintro ⟨ms, hm⟩ ⟨i, s, u, hsa, hqa⟩
    have hs1 : getColumn (setColumn df "month" ms) "sales_amount" =
        some sales := by
      rw [getColumn_setColumn_ne _ _ _ _ (by decide)]
      exact hs
    have hq1 : getColumn (setColumn df "month" ms) "quantity" =
        some qtys := by
      rw [getColumn_setColumn_ne _ _ _ _ (by decide)]
      exact hq
    have ht : mulColumns sales qtys = Except.error PyErr.typeError :=
      mulColumns_error_of_get hsa hqa rfl
    simp only [transform_data, hd, hm, hs1, hq1, ht]

/-- C1 counterexample: on `dfCex2` the `quantity` operand of the
multiplication is non-numeric (the string `"ab"` — not `Value.num n`
for any `n`), yet the Transformer does not fail at all: Python
string-repetition semantics store `"abab"` in `total_value` and the
run succeeds.  And on `dfCex` — a string `sales_amount` next to an
integer — the multiplication still does not raise (`"abab"` is already
stored in the mutated state); the failure only comes later, from the
summary line, as a `ValueError`, not the claimed
`TypeError`-equivalent of the multiplication. -/
theorem transform_total_value_cex :
    getColumn dfCex2 "quantity" = some [Value.str "ab"] ∧
    (∀ (n : Int), Value.str "ab" ≠ Value.num n) ∧
    transform_data dfCex2 =
      ([Ev.stageStart Stage.transform, Ev.print (validationMsg 1 "2")],
        outCex2, Except.ok outCex2) ∧
    getColumn outCex2 "total_value" = some [Value.str "abab"] ∧
    transform_data dfCex =
      ([Ev.stageStart Stage.transform], outCex,
        Except.error PyErr.valueError) ∧
    getColumn outCex "total_value" = some [Value.str "abab"] := by
  refine ⟨rfl, ?_, by rfl, rfl, by rfl, rfl⟩
  intro n h
  cases h

/-- Witness for C1 (amended) at the scenario row (product `200`) and at
the two-string row (a real `TypeError`). -/
theorem transform_total_value_witness :
    (∃ totals, getColumn outW1 "total_value" = some totals ∧
      totals[0]? = some (Value.num 200)) ∧
    (transform_data dfStrStr).2.2 = Except.error PyErr.typeError := by
  constructor
  · obtain ⟨totals, h1, h2⟩ :=
      (transform_total_value dfW1 [Value.str "2024-01-15"] [Value.num 100]
        [Value.num 2] rfl rfl rfl).1
        [Ev.stageStart Stage.transform, Ev.print (validationMsg 1 "100")]
        outW1 outW1 (by rfl)
    refine ⟨totals, h1, ?_⟩
    have := h2 0 100 2 rfl rfl
    norm_num at this
    exact this
  · exact (transform_total_value dfStrStr [Value.str "2024-01-15"]
      [Value.str "a"] [Value.str "b"] rfl rfl rfl).2
      ⟨[Value.str "2024-01"], by rfl⟩ ⟨0, "a", "b", rfl, rfl⟩

/-- C7: the quality check counts missing values across all columns of
the (already enriched) table; on a successful transformation the
warning line — whose text names only the total count — is printed if
and only if that count is positive, and the check itself is non-fatal:
the transformed table is still returned, and every possible failure of
the transformer is a parse error (dates), a `TypeError` (the product,
or summing a mixed column at the summary line), a `ValueError`
(formatting a string sum at the summary line) or a missing column —
never the null count. -/
theorem transform_null_warning (df : Table) :
    (∀ (evs : List Ev) (st out : Table),
      transform_data df = (evs, st, Except.ok out) →
      st = out ∧
      warnMsg (nullCount out) =
        "Warning: Found " ++ (toString (nullCount out) ++ " null values") ∧
      (Ev.print (warnMsg (nullCount out)) ∈ evs ↔ 0 < nullCount out)) ∧
    (∀ (evs : List Ev) (st : Table) (e : PyErr),
      transform_data df = (evs, st, Except.error e) →
      e = PyErr.parseError ∨ e = PyErr.typeError ∨ e = PyErr.valueError ∨
        e = PyErr.keyError "date" ∨ e = PyErr.keyError "sales_amount" ∨
        e = PyErr.keyError "quantity") := by
  constructor
  · intro evs st out h
    obtain ⟨dates, ms, sales, qtys, totals, total, totalStr, hd, hm,
      hs, hq, ht, hsum, hfmt, hst, hout, hevs⟩ := transform_ok_shape h
    refine ⟨hst, rfl, ?_⟩
    rw [hevs]
    by_cases hn : 0 < nullCount out
    · simp [hn]
    · simp only [hn, if_false, iff_false]
      simp only [List.append_nil, List.nil_append, List.mem_append,
        List.mem_singleton, List.mem_cons, List.not_mem_nil, or_false]
      push_neg
      refine ⟨?_, ?_⟩
      · intro hcontra
        cases hcontra
      · intro hcontra
        exact warnMsg_ne_validationMsg _ _ _ (Ev.print.inj hcontra)
  · intro evs st e h
    exact transform_error_shape h

/-- Witness for C7: a table with missing cells triggers the warning
with the exact total (here 4 missing cells after enrichment), and a
failing transformation carries one of the listed error kinds. -/
theorem transform_null_warning_witness :
    Ev.print (warnMsg 4) ∈ (transform_data dfNulls).1 ∧
    (PyErr.parseError = PyErr.parseError ∨ PyErr.parseError = PyErr.typeError ∨
      PyErr.parseError = PyErr.valueError ∨
      PyErr.parseError = PyErr.keyError "date" ∨
      PyErr.parseError = PyErr.keyError "sales_amount" ∨
      PyErr.parseError = PyErr.keyError "quantity") := by
  constructor
  · have h := ((transform_null_warning dfNulls).1
      (transform_data dfNulls).1 (transform_data dfNulls).2.1 outNulls
      (by rfl)).2.2
    have h4 : nullCount outNulls = 4 := by rfl
    rw [h4] at h
    exact h.mpr (by decide)
  · exact ((transform_null_warning dfBad).2
      [Ev.stageStart Stage.transform] dfBad PyErr.parseError (by rfl))

/-- C8: the Transformer mutates in place and is not atomic on error:
when every date converts but the elementwise product raises, the
caller's table already carries the appended `month` column when the
call fails — the returned state is `setColumn df "month" ms`, which
differs from the input table whenever `month` was not already a column
— together with the `TypeError`. -/
theorem transform_not_atomic (df : Table) (dates sales qtys ms : List Value)
    (hd : getColumn df "date" = some dates)
    (hm : mapMonths dates = Except.ok ms)
    (hs : getColumn df "sales_amount" = some sales)
    (hq : getColumn df "quantity" = some qtys)
    (he : mulColumns sales qtys = Except.error PyErr.typeError) :
    (transform_data df).2.1 = setColumn df "month" ms ∧
    getColumn (transform_data df).2.1 "month" = some ms ∧
    (transform_data df).2.2 = Except.error PyErr.typeError ∧
    ("month" ∉ colNames df → (transform_data df).2.1 ≠ df) := by
  have hs1 : getColumn (setColumn df "month" ms) "sales_amount" =
      some sales := by
    rw [getColumn_setColumn_ne _ _ _ _ (by decide)]
    exact hs
  have hq1 : getColumn (setColumn df "month" ms) "quantity" =
      some qtys := by
    rw [getColumn_setColumn_ne _ _ _ _ (by decide)]
    exact hq
  have hred : transform_data df =
      ([Ev.stageStart Stage.transform], setColumn df "month" ms,
        Except.error PyErr.typeError) := by
    simp only [transform_data, hd, hm, hs1, hq1, he]
  rw [hred]
  refine ⟨rfl, getColumn_setColumn_self _ _ _, rfl, ?_⟩
  intro hmem hEq
  have hEq' : setColumn df "month" ms = df := hEq
  have hlen := length_setColumn_of_not_mem df "month" ms hmem
  rw [hEq'] at hlen
  omega

/-- Witness for C8: on the two-string row the transformation fails with
`TypeError`, yet the returned state already carries the new `month`
column and differs from the input table. -/
theorem transform_not_atomic_witness :
    (transform_data dfStrStr).2.1 ≠ dfStrStr ∧
    getColumn (transform_data dfStrStr).2.1 "month" =
      some [Value.str "2024-01"] ∧
    (transform_data dfStrStr).2.2 = Except.error PyErr.typeError := by
  obtain ⟨h1, h2, h3, h4⟩ :=
    transform_not_atomic dfStrStr [Value.str "2024-01-15"] [Value.str "a"]
      [Value.str "b"] [Value.str "2024-01"] rfl (by rfl) rfl rfl (by rfl)
  exact ⟨h4 (by decide), h2, h3⟩

/-- Witness for C3: a concrete run whose warehouse load fails — the
first four stages are invoked in order, the Reporter never starts, the
upload is in the trace, no rollback is, and the run returns `False`. -/
theorem pipeline_stage_order_witness :
    stageInvocations (run_pipeline envBq).1 =
      [Stage.extract, Stage.transform, Stage.loadStorage,
       Stage.loadBigquery] ∧
    Ev.stageStart Stage.analytics ∉ (run_pipeline envBq).1 ∧
    (∀ (b o : String), Ev.blobDelete b o ∉ (run_pipeline envBq).1) ∧
    (run_pipeline envBq).2 = false := by
  obtain ⟨h1, h2, h3, h4, h5⟩ :=
    (pipeline_stage_order envBq).2 dfW1 outW1
      (PyErr.backend "network error") (by rfl) (by rfl) (by rfl) (by rfl)
  exact ⟨h1, h2, h4, h5⟩

/-- C4: per-query isolation in the Reporter: whatever each query's
outcome, both fixed queries are executed exactly once and in order, a
failing query's error is caught and logged with its own message line,
and one query's failure does not prevent the other from running; the
Reporter never raises (its result type carries no exception), unlike
the Loaders whose failures abort the run. -/
theorem analytics_query_isolation (q1 q2 : Except String Unit) :
    queryInvocations (run_analytics q1 q2) = [queryAName, queryBName] ∧
    (∀ m, q1 = Except.error m →
      Ev.print (queryErrMsg queryAName m) ∈ run_analytics q1 q2 ∧
      Ev.queryRun queryBName ∈ run_analytics q1 q2) ∧
    (∀ m, q2 = Except.error m →
      Ev.print (queryErrMsg queryBName m) ∈ run_analytics q1 q2) := by
  refine ⟨?_, ?_, ?_⟩
  · rcases q1 with m1 | u1 <;> rcases q2 with m2 | u2 <;>
      simp [run_analytics, runOneQuery, queryInvocations]
  · intro m h
    subst h
    rcases q2 with m2 | u2 <;> simp [run_analytics, runOneQuery]
  · intro m h
    subst h
    rcases q1 with m1 | u1 <;> simp [run_analytics, runOneQuery]

/-- Witness for C4: with the first query failing and the second
succeeding, the first query's failure is logged and the second query
still runs. -/
theorem analytics_query_isolation_witness :
    queryInvocations (run_analytics (Except.error "boom") (Except.ok ())) =
      [queryAName, queryBName] ∧
    Ev.print (queryErrMsg queryAName "boom") ∈
      run_analytics (Except.error "boom") (Except.ok ()) ∧
    Ev.queryRun queryBName ∈
      run_analytics (Except.error "boom") (Except.ok ()) := by
  obtain ⟨h1, h2, h3⟩ :=
    analytics_query_isolation (Except.error "boom") (Except.ok ())
  obtain ⟨h4, h5⟩ := h2 "boom" rfl
  exact ⟨h1, h4, h5⟩

/-- C5: on any unhandled stage failure the driver prints the diagnostic
line carrying the underlying error (`Pipeline execution failed: ...`),
the printed stage headers identify the failing stage — the invocation
list of the run is exactly the canonical order truncated at that stage
— and the run returns `False`; on success the driver prints the
completion line and the console URL referencing the warehouse project,
and returns `True`. -/
theorem pipeline_exit_behavior (env : Env) :
    (pipelineOutcome env = Except.ok () →
      (run_pipeline env).2 = true ∧
      Ev.print "ETL pipeline completed successfully" ∈
        (run_pipeline env).1 ∧
      Ev.print ("Data available at: " ++ consoleUrl) ∈
        (run_pipeline env).1) ∧
    (∀ (s : Stage) (e : PyErr),
      pipelineOutcome env = Except.error (s, e) →
      (run_pipeline env).2 = false ∧
      Ev.print (pipelineFailMsg e) ∈ (run_pipeline env).1 ∧
      stageInvocations (run_pipeline env).1 = stagesUpTo s) := by
  rcases hE : (extract_data env).2 with eE | raw
  · constructor
    · intro h
      simp only [pipelineOutcome, hE] at h
      simp at h
    · intro s e h
      simp only [pipelineOutcome, hE, Except.error.injEq,
        Prod.mk.injEq] at h
      obtain ⟨hs, he⟩ := h
      subst hs
      subst he
      refine ⟨by simp [run_pipeline, hE], by simp [run_pipeline, hE], ?_⟩
      simp only [run_pipeline, hE]
      simp only [stageInvocations_append, stageInvocations_extract,
        stageInvocations_cons_print, stageInvocations_nil]
      rfl
  · rcases hT : (transform_data raw).2.2 with eT | processed
    · constructor
      · intro h
        simp only [pipelineOutcome, hE, hT] at h
        simp at h
      · intro s e h
        simp only [pipelineOutcome, hE, hT, Except.error.injEq,
          Prod.mk.injEq] at h
        obtain ⟨hs, he⟩ := h
        subst hs
        subst he
        refine ⟨by simp [run_pipeline, hE, hT],
          by simp [run_pipeline, hE, hT], ?_⟩
        simp only [run_pipeline, hE, hT]
        simp only [stageInvocations_append, stageInvocations_extract,
          stageInvocations_transform, stageInvocations_cons_print,
          stageInvocations_nil]
        rfl
    · rcases hS : (load_to_storage env processed).2 with eS | uS
      · constructor
        · intro h
          simp only [pipelineOutcome, hE, hT, hS] at h
          simp at h
        · intro s e h
          simp only [pipelineOutcome, hE, hT, hS, Except.error.injEq,
            Prod.mk.injEq] at h
          obtain ⟨hs, he⟩ := h
          subst hs
          subst he
          refine ⟨by simp [run_pipeline, hE, hT, hS],
            by simp [run_pipeline, hE, hT, hS], ?_⟩
          simp only [run_pipeline, hE, hT, hS]
          simp only [stageInvocations_append, stageInvocations_extract,
            stageInvocations_transform, stageInvocations_storage,
            stageInvocations_cons_print, stageInvocations_nil]
          rfl
      · rcases hB : (load_to_bigquery env processed).2 with eB | uB
        · constructor
          · intro h
            simp only [pipelineOutcome, hE, hT, hS, hB] at h
            simp at h
          · intro s e h
            simp only [pipelineOutcome, hE, hT, hS, hB,
              Except.error.injEq, Prod.mk.injEq] at h
            obtain ⟨hs, he⟩ := h
            subst hs
            subst he
            refine ⟨by simp [run_pipeline, hE, hT, hS, hB],
              by simp [run_pipeline, hE, hT, hS, hB], ?_⟩
            simp only [run_pipeline, hE, hT, hS, hB]
            simp only [stageInvocations_append, stageInvocations_extract,
              stageInvocations_transform, stageInvocations_storage,
              stageInvocations_bigquery, stageInvocations_cons_print,
              stageInvocations_nil]
            rfl
        · constructor
          · intro h
            refine ⟨by simp [run_pipeline, hE, hT, hS, hB], ?_, ?_⟩
            · simp [run_pipeline, hE, hT, hS, hB]
            · simp [run_pipeline, hE, hT, hS, hB]
          · intro s e h
            simp only [pipelineOutcome, hE, hT, hS, hB] at h
            simp at h

/-- Witness for C5: a fully successful run returns `True` and prints
the console URL; a run whose storage upload raises returns `False`,
prints the diagnostic carrying the underlying error, and its headers
identify the Storage Loader as the failing stage. -/
theorem pipeline_exit_behavior_witness :
    (run_pipeline envOk).2 = true ∧
    Ev.print ("Data available at: " ++ consoleUrl) ∈
      (run_pipeline envOk).1 ∧
    (run_pipeline envUp).2 = false ∧
    Ev.print (pipelineFailMsg (PyErr.backend "disk full")) ∈
      (run_pipeline envUp).1 ∧
    stageInvocations (run_pipeline envUp).1 =
      stagesUpTo Stage.loadStorage := by
  obtain ⟨h1, h2, h3⟩ := (pipeline_exit_behavior envOk).1 (by rfl)
  obtain ⟨h4, h5, h6⟩ := (pipeline_exit_behavior envUp).2
    Stage.loadStorage (PyErr.backend "disk full") (by rfl)
  exact ⟨h1, h3, h4, h5, h6⟩

/-- C9: Reporter failures never affect the reported outcome: whenever
extract, transform, storage load and warehouse load all succeed,
`run_pipeline` returns `True`, whatever the two query results in the
environment are — all query exceptions are swallowed inside
`run_analytics`. -/
theorem pipeline_success_ignores_reporter (env : Env)
    (raw processed : Table)
    (hE : (extract_data env).2 = Except.ok raw)
    (hT : (transform_data raw).2.2 = Except.ok processed)
    (hS : (load_to_storage env processed).2 = Except.ok ())
    (hB : (load_to_bigquery env processed).2 = Except.ok ()) :
    (run_pipeline env).2 = true := by
  simp [run_pipeline, hE, hT, hS, hB]

/-- Witness for C9: a run in which both analytics queries fail still
returns `True`. -/
theorem pipeline_success_ignores_reporter_witness :
    (run_pipeline envQF).2 = true :=
  pipeline_success_ignores_reporter envQF dfW1 outW1
    (by rfl) (by rfl) (by rfl) (by rfl)

/-- C10: the dataset-existence check of the Warehouse Loader is a
catch-all: ANY fetch failure — whatever its message, not only a
not-found error — leads to a dataset-creation attempt in the fixed
region `US`; and when creation and the load job succeed, the loader
returns success, so the fetch error is never surfaced. -/
theorem bigquery_dataset_fallback (env : Env) (df : Table) (m : String)
    (h : env.datasetGetResult = Except.error m) :
    Ev.datasetCreate dataset_id "US" ∈ (load_to_bigquery env df).1 ∧
    (env.datasetCreateResult = Except.ok () →
      env.loadJobResult = Except.ok () →
      (load_to_bigquery env df).2 = Except.ok ()) := by
  constructor
  · simp only [load_to_bigquery, h]
    rcases hc : env.datasetCreateResult with m1 | u1
    · simp
    · rcases hl : env.loadJobResult with m2 | u2 <;> simp
  · intro hc hl
    simp [load_to_bigquery, h, hc, hl]

/-- Witness for C10: a transient `503` fetch failure on the dataset
still leads to a creation attempt, and the loader succeeds. -/
theorem bigquery_dataset_fallback_witness :
    Ev.datasetCreate dataset_id "US" ∈
      (load_to_bigquery envTransient dfW1).1 ∧
    (load_to_bigquery envTransient dfW1).2 = Except.ok () := by
  obtain ⟨h1, h2⟩ := bigquery_dataset_fallback envTransient dfW1
    "503 service unavailable" rfl
  exact ⟨h1, h2 rfl rfl⟩

/-- C6: the Storage Loader first checks the bucket and creates it in
region `US` only when absent (reusing it otherwise); the blob name is
the fixed prefix `sales_data_` plus the second-resolution timestamp
plus `.csv`; the uploaded content is the CSV serialization of the table
— a header line of the column names (no index column) followed by one
line per row — with content type `text/csv`.  The trace equation below
records the exact events of the call, in order, for every environment
and table. -/
theorem storage_loader_behavior (env : Env) (df : Table) :
    (load_to_storage env df).1 =
      [Ev.stageStart Stage.loadStorage,
       Ev.bucketCheck (bucket_name env.initTime)] ++
      (if env.bucketExists then
         [Ev.print ("Using existing storage bucket: " ++
           bucket_name env.initTime)]
       else
         [Ev.bucketCreate (bucket_name env.initTime) "US",
          Ev.print ("Created new storage bucket: " ++
            bucket_name env.initTime)]) ++
      [Ev.blobUpload (bucket_name env.initTime) (blob_name env.now)
        (toCsv df) "text/csv"] ++
      (match env.uploadResult with
       | Except.ok _ =>
         [Ev.print ("Successfully uploaded file: " ++ blob_name env.now)]
       | Except.error m =>
         [Ev.print ("Error uploading to Cloud Storage: " ++ m)]) ∧
    blob_name env.now = "sales_data_" ++ timeStamp env.now ++ ".csv" ∧
    toCsv df = String.intercalate "\n" (csvLines df) ++ "\n" ∧
    csvLines df =
      String.intercalate "," (colNames df) ::
        (List.range (nrows df)).map (csvRow df) ∧
    (csvLines df).length = nrows df + 1 := by
  refine ⟨?_, rfl, rfl, rfl, by simp [csvLines]⟩
  rcases hu : env.uploadResult with m | u <;>
    cases hb : env.bucketExists <;>
    simp [load_to_storage, hu, hb]
